import Mathlib

/-!
Shallow embedding of `src/monitor.py`, a bidirectional MQTT ↔ Telegram
bridge, together with proofs of the specification claims.

Strings are modelled as Lean `String` / `List Char`; the Python regular
expression `IMAGE_URL_PATTERN` is embedded operationally (including the
greedy backtracking that determines `match.group(1)`); the side effects of
the two message handlers (HTTP fetches, Telegram sends, MQTT publishes,
subscriptions, replies, logged errors) are reified as an `Effect` list.
-/

namespace Monitor

/-- ASCII whitespace stripped by Python `str.strip()`. -/
def isPySpace (c : Char) : Bool :=
  c = ' ' || c = '\t' || c = '\n' || c = '\r' || c = '\x0b' || c = '\x0c'

/-- Python `str.strip()` on a character list. -/
def pyStrip (s : List Char) : List Char :=
  ((s.dropWhile isPySpace).reverse.dropWhile isPySpace).reverse

/-- Python `str.strip()` on a `String`. -/
def stripStr (s : String) : String := String.mk (pyStrip s.data)

/-- Python `str.lower()` (ASCII range, which is all that the regex groups
below can produce letters from). -/
def lowerList (l : List Char) : List Char := l.map Char.toLower

/-- Case-insensitive literal match: `matchCI pat cs` consumes `pat`
(given lowercase) from the front of `cs`, returning the original-case
consumed characters and the remainder.  This embeds matching a literal
regex fragment under `re.IGNORECASE`. -/
def matchCI : List Char → List Char → Option (List Char × List Char)
  | [], cs => some ([], cs)
  | _ :: _, [] => none
  | p :: ps, c :: cs =>
    if c.toLower = p then
      match matchCI ps cs with
      | some (m, r) => some (c :: m, r)
      | none => none
    else none

/-- The alternation `(jpg|jpeg|png|gif|webp)` of `IMAGE_URL_PATTERN`,
tried in source order.  At any given position at most one alternative can
match (the alternatives are pairwise incompatible as prefixes), so the
first hit is the only hit. -/
def extAt (cs : List Char) : Option (List Char × List Char) :=
  match matchCI "jpg".data cs with
  | some r => some r
  | none =>
    match matchCI "jpeg".data cs with
    | some r => some r
    | none =>
      match matchCI "png".data cs with
      | some r => some r
      | none =>
        match matchCI "gif".data cs with
        | some r => some r
        | none => matchCI "webp".data cs

/-- No newline: the characters `.`, `.*` and `.+` can consume in a Python
regex without `re.DOTALL`. -/
def noNl (l : List Char) : Bool := l.all (fun c => c ≠ '\n')

/-- Python `$` (no `re.MULTILINE`): end of string, or just before a single
trailing newline. -/
def dollarOk : List Char → Bool
  | [] => true
  | ['\n'] => true
  | _ => false

/-- The regex fragment `.*$`: some split of the input into a newline-free
part consumed by `.*` and a part where `$` holds. -/
def dotStarDollar (cs : List Char) : Bool :=
  noNl cs || (noNl cs.dropLast && cs.getLast? == some '\n')

/-- The regex fragment `(\?.*)?$` checked against the remainder after the
extension. -/
def optQueryDollar : List Char → Bool
  | [] => true
  | ['\n'] => true
  | '?' :: rest => dotStarDollar rest
  | _ => false

/-- One backtracking position of `.*\.(jpg|jpeg|png|gif|webp)(\?.*)?$`:
`.*` consumes the first `k` characters (which must be newline-free), then
a literal dot, the extension alternation, and the optional query up to the
anchor.  Returns `group(1)` on success. -/
def tryExtAt (cs : List Char) (k : Nat) : Option (List Char) :=
  if noNl (cs.take k) then
    match cs.drop k with
    | '.' :: rest =>
      match extAt rest with
      | some (g, rem) => if optQueryDollar rem then some g else none
      | none => none
    | _ => none
  else none

/-- Greedy `.*`: positions are tried longest-first, exactly as the Python
engine backtracks, so the returned `group(1)` is the one at the largest
workable split. -/
def searchDown (cs : List Char) : Nat → Option (List Char)
  | 0 => tryExtAt cs 0
  | k + 1 =>
    match tryExtAt cs (k + 1) with
    | some g => some g
    | none => searchDown cs k

/-- The anchored scheme part `^https?://` under `re.IGNORECASE`; greedy
`s?` is tried with the `s` first, which is deterministic here. -/
def dropSchemeCI (cs : List Char) : Option (List Char) :=
  match matchCI "http".data cs with
  | none => none
  | some (_, r1) =>
    match matchCI "s://".data r1 with
    | some (_, r2) => some r2
    | none =>
      match matchCI "://".data r1 with
      | some (_, r2) => some r2
      | none => none

/-- `IMAGE_URL_PATTERN.match(s)` (src/monitor.py lines 65–68): `none` when
the regex does not match, `some g` with `g = match.group(1)` (the matched
extension, original case) when it does. -/
def imageUrlMatch (s : List Char) : Option (List Char) :=
  match dropSchemeCI s with
  | none => none
  | some r => searchDown r r.length

/-- The two media kinds of the spec's `MediaPayload`. -/
inductive MediaKind where
  | image
  | animation
deriving DecidableEq, Repr

/-- The spec's `ClassifiedPayload`: plain text, or a media URL with the
matched (lowercased) extension and kind. -/
inductive ClassifiedPayload where
  | text (t : String)
  | media (url : String) (ext : String) (kind : MediaKind)
deriving DecidableEq, Repr

/-- The classification step of `on_message` (src/monitor.py lines 86–93)
as the spec's pure `classify`: decode-free string input, `strip`, match
against `IMAGE_URL_PATTERN`, lowercase the matched extension, and decide
animation (gif) versus image. -/
def classify (s : String) : ClassifiedPayload :=
  let t := pyStrip s.data
  match imageUrlMatch t with
  | some g =>
    ClassifiedPayload.media (String.mk t) (String.mk (lowerList g))
      (if lowerList g = "gif".data then MediaKind.animation else MediaKind.image)
  | none => ClassifiedPayload.text (String.mk t)

/-- Configuration read from the environment at process start
(src/monitor.py lines 43–56): the destination chat identity
(`TELEGRAM_CHAT_ID`, a string), the comma-split output topic filter list
(`MQTT_TOPICS_OUTPUT`), and the input topic (`MQTT_TOPIC_INPUT`). -/
structure Config where
  chatId : String
  topicsOutput : List String
  topicInput : String
deriving DecidableEq, Repr

/-- Observable side effects performed by the handlers.  Chat sends carry
the destination chat identity as a string (for `reply_to` the string form
of the message's chat id). -/
inductive Effect where
  | fetch (url : String)
  | sendMessage (chatId : String) (text : String)
  | sendPhoto (chatId : String) (filename : String) (caption : String)
  | sendAnimation (chatId : String) (filename : String) (caption : String)
  | replyTo (chatId : String) (text : String)
  | publish (topic : String) (payload : String)
  | subscribe (topicFilter : String)
  | logWarning
  | logError
deriving DecidableEq, Repr

/-- Outcome of `requests.get(url, timeout=15, stream=True)`: the call
either raises (connection error, timeout) or completes with an HTTP
status code. -/
inductive FetchOutcome where
  | raisesBefore
  | completes (status : Nat)
deriving DecidableEq, Repr

/-- Outcome of a Telegram send call: returns normally or raises. -/
inductive SendOutcome where
  | ok
  | raises
deriving DecidableEq, Repr

/-- Environment of one `on_message` invocation: what the HTTP fetch and
the Telegram send would do if reached. -/
structure Env where
  fetch : FetchOutcome
  send : SendOutcome
deriving DecidableEq, Repr

/-- `response.raise_for_status()` raises `HTTPError` exactly for 4xx and
5xx status codes (requests' documented behavior). -/
def raiseForStatus (status : Nat) : Bool :=
  400 ≤ status && status < 600

/-- A fetch attempt that fails: the GET raises, or the status is 4xx/5xx
so `raise_for_status` raises. -/
def fetchFails : FetchOutcome → Bool
  | FetchOutcome.raisesBefore => true
  | FetchOutcome.completes st => raiseForStatus st

/-- Result of running a handler body: the effects performed, and whether
an exception escaped. -/
structure HandlerResult where
  effects : List Effect
  raised : Bool
deriving DecidableEq, Repr

/-- The body of the `try:` block of `on_message` (src/monitor.py lines
89–114), together with the initial decode-and-strip of line 86.  `payload`
is the decoded payload string; `env` tells the outcome of the external
calls.  Effects of calls made before an exception are recorded. -/
def onMessageBody (cfg : Config) (env : Env) (topic payload : String) :
    HandlerResult :=
  let p := stripStr payload
  match imageUrlMatch (pyStrip payload.data) with
  | some g =>
    let ext : String := String.mk (lowerList g)
    let caption := "Topic: " ++ topic
    match env.fetch with
    | FetchOutcome.raisesBefore =>
      { effects := [Effect.fetch p], raised := true }
    | FetchOutcome.completes status =>
      if raiseForStatus status then
        { effects := [Effect.fetch p], raised := true }
      else
        let sendEff :=
          if ext = "gif" then
            Effect.sendAnimation cfg.chatId ("snapshot." ++ ext) caption
          else
            Effect.sendPhoto cfg.chatId ("snapshot." ++ ext) caption
        { effects := [Effect.fetch p, sendEff],
          raised := env.send == SendOutcome.raises }
  | none =>
    { effects :=
        [Effect.sendMessage cfg.chatId ("Topic: " ++ topic ++ "\nMessage: " ++ p)],
      raised := env.send == SendOutcome.raises }

/-- `on_message` (src/monitor.py lines 85–117): the body wrapped in
`try: ... except Exception: logger.exception(...)`, which swallows every
exception and logs it. -/
def on_message (cfg : Config) (env : Env) (topic payload : String) :
    HandlerResult :=
  let r := onMessageBody cfg env topic payload
  if r.raised then
    { effects := r.effects ++ [Effect.logError], raised := false }
  else r

/-- Sequential processing of a stream of inbound broker messages by the
broker client's dispatch loop, each as `(env, topic, payload)`. -/
def processMessages (cfg : Config) : List (Env × String × String) → List Effect
  | [] => []
  | (env, topic, payload) :: rest =>
    (on_message cfg env topic payload).effects ++ processMessages cfg rest

/-- `on_connect` (src/monitor.py lines 74–82): on result code 0,
subscribe to each configured filter (stripped of surrounding whitespace,
for comma-separated lists written with spaces), in order; otherwise only
log an error. -/
def on_connect (cfg : Config) (rc : Nat) : List Effect :=
  if rc = 0 then
    cfg.topicsOutput.map (fun t => Effect.subscribe (stripStr t))
  else
    [Effect.logError]

/-- `handle_telegram_message` (src/monitor.py lines 147–161).  The sender
chat id is a Telegram integer id; the guard compares `str(message.chat.id)`
with `str(CHAT_ID)` (and `CHAT_ID` is already a string).  `publishRc` is
the `rc` of the paho publish result; `MQTT_ERR_SUCCESS = 0`. -/
def handle_telegram_message (cfg : Config) (senderId : Int) (text : String)
    (publishRc : Nat) : List Effect :=
  if toString senderId ≠ cfg.chatId then
    [Effect.logWarning]
  else
    Effect.publish cfg.topicInput text ::
      (if publishRc = 0 then
        [Effect.replyTo (toString senderId) ("Sent to `" ++ cfg.topicInput ++ "`")]
      else
        [Effect.replyTo (toString senderId) "ERROR - Publishing to MQTT failed"])

/-- The chat destination of an effect, when it is a chat send. -/
def chatDest : Effect → Option String
  | Effect.sendMessage c _ => some c
  | Effect.sendPhoto c _ _ => some c
  | Effect.sendAnimation c _ _ => some c
  | Effect.replyTo c _ => some c
  | _ => none

/-- Every chat send in the list targets the given identity. -/
def sendsOnlyTo (cid : String) (l : List Effect) : Bool :=
  l.all (fun e =>
    match chatDest e with
    | some d => d == cid
    | none => true)

/-- The HTTP fetches in an effect list. -/
def fetchesOf (l : List Effect) : List String :=
  l.filterMap (fun e =>
    match e with
    | Effect.fetch u => some u
    | _ => none)

/-- The chat text sends (`send_message`) in an effect list, as
(destination, text). -/
def textSendsOf (l : List Effect) : List (String × String) :=
  l.filterMap (fun e =>
    match e with
    | Effect.sendMessage c t => some (c, t)
    | _ => none)

/-- The media sends (`send_photo` / `send_animation`) in an effect list. -/
def mediaSendsOf (l : List Effect) : List Effect :=
  l.filter (fun e =>
    match e with
    | Effect.sendPhoto _ _ _ => true
    | Effect.sendAnimation _ _ _ => true
    | _ => false)

/-- All chat sends (text, media, replies) in an effect list. -/
def chatSendsOf (l : List Effect) : List Effect :=
  l.filter (fun e => (chatDest e).isSome)

/-- The MQTT publishes in an effect list, as (topic, payload). -/
def publishesOf (l : List Effect) : List (String × String) :=
  l.filterMap (fun e =>
    match e with
    | Effect.publish t p => some (t, p)
    | _ => none)

/-- The replies (`reply_to`) in an effect list, as (destination, text). -/
def repliesOf (l : List Effect) : List (String × String) :=
  l.filterMap (fun e =>
    match e with
    | Effect.replyTo c t => some (c, t)
    | _ => none)

/-- The subscriptions in an effect list. -/
def subsOf (l : List Effect) : List String :=
  l.filterMap (fun e =>
    match e with
    | Effect.subscribe t => some t
    | _ => none)

/-! Spec-side pattern definitions.  These follow the wording of the
specification / claims, not the source: the match of an anchored pattern
`^https?://X\.(jpg|jpeg|png|gif|webp)(\?.*)?$` succeeds exactly when some
split position for `X` works, stated here directly as a bounded
existential over positions rather than as the engine's greedy search. -/

/-- The spec's pattern with `.+` (claim wording
`^https?://.+\.(jpg|jpeg|png|gif|webp)(\?.*)?$`, case-insensitive): some
nonempty newline-free stretch between the scheme and the dot. -/
def specMatchesPlusL (cs : List Char) : Bool :=
  match dropSchemeCI cs with
  | none => false
  | some r =>
    (List.range (r.length + 1)).any (fun k => k != 0 && (tryExtAt r k).isSome)

/-- The source's pattern with `.*` (possibly empty stretch between the
scheme and the dot), as a positional existential. -/
def specMatchesStarL (cs : List Char) : Bool :=
  match dropSchemeCI cs with
  | none => false
  | some r =>
    (List.range (r.length + 1)).any (fun k => (tryExtAt r k).isSome)

/-- String version of `specMatchesPlusL`. -/
def specMatchesPlus (s : String) : Bool := specMatchesPlusL s.data

/-- String version of `specMatchesStarL`. -/
def specMatchesStar (s : String) : Bool := specMatchesStarL s.data

/-- The greedy longest-first search succeeds exactly when some position up
to the bound succeeds. -/
theorem searchDown_isSome (cs : List Char) :
    ∀ n : Nat, (searchDown cs n).isSome =
      (List.range (n + 1)).any (fun k => (tryExtAt cs k).isSome) := by
  intro n
  induction n with
  | zero =>
    have h1 : List.range 1 = [0] := rfl
    simp [searchDown, h1]
  | succ m ih =>
    rw [List.range_succ, List.any_append]
    cases h : tryExtAt cs (m + 1) with
    | some g => simp [searchDown, h]
    | none => simp [searchDown, h, ih]

/-- The engine-style matcher and the positional-existential matcher agree
on match success. -/
theorem imageUrlMatch_isSome_eq_star (cs : List Char) :
    (imageUrlMatch cs).isSome = specMatchesStarL cs := by
  unfold imageUrlMatch specMatchesStarL
  cases h : dropSchemeCI cs with
  | none => rfl
  | some r => exact searchDown_isSome r r.length

/-- C1 fails as stated: the source pattern (line 66) uses `.*` where the
claim's pattern uses `.+`.  The string `"http://.jpg"` does not match the
claim's pattern (nothing between the scheme and the extension dot), so the
claim requires `classify` to return `TextPayload`, but the code classifies
it as an image `MediaPayload`. -/
theorem C1_counterexample :
    specMatchesPlus "http://.jpg" = false ∧
    classify "http://.jpg" ≠ ClassifiedPayload.text "http://.jpg" ∧
    classify "http://.jpg" =
      ClassifiedPayload.media "http://.jpg" "jpg" MediaKind.image :=
  ⟨by decide, by decide, by decide⟩

/-- C1 (amended): for every string `s` whose whitespace-trimmed form
matches `^https?://.*\.(jpg|jpeg|png|gif|webp)(\?.*)?$` case-insensitively
(`.*`: the stretch between the scheme and the extension may be empty),
`classify s` returns `MediaPayload` whose url is the trimmed `s`, with
`kind = animation` iff the matched extension lowercased is `gif` and
`kind = image` otherwise; for every other string, `classify s` returns
`TextPayload` of the trimmed `s`. -/
theorem C1_amended_classify (s : String) :
    (specMatchesStar (stripStr s) = false →
      classify s = ClassifiedPayload.text (stripStr s)) ∧
    (specMatchesStar (stripStr s) = true →
      ∃ g, imageUrlMatch (pyStrip s.data) = some g ∧
        classify s = ClassifiedPayload.media (stripStr s)
          (String.mk (lowerList g))
          (if lowerList g = "gif".data then MediaKind.animation
           else MediaKind.image)) := by
  have hiff : specMatchesStar (stripStr s) =
      (imageUrlMatch (pyStrip s.data)).isSome := by
    rw [specMatchesStar, imageUrlMatch_isSome_eq_star]
    rfl
  constructor
  · intro h
    rw [hiff] at h
    cases hm : imageUrlMatch (pyStrip s.data) with
    | none => simp [classify, hm, stripStr]
    | some g => rw [hm] at h; simp at h
  · intro h
    rw [hiff] at h
    cases hm : imageUrlMatch (pyStrip s.data) with
    | none => rw [hm] at h; simp at h
    | some g =>
      refine ⟨g, rfl, ?_⟩
      simp [classify, hm, stripStr]

/-- Witness for C1 (amended): both branches at concrete inputs — a plain
text payload and a `.GIF` URL payload. -/
theorem C1_amended_witness :
    classify " hello " = ClassifiedPayload.text (stripStr " hello ") ∧
    (∃ g, imageUrlMatch (pyStrip (" http://cam/1.GIF " : String).data) = some g ∧
      classify " http://cam/1.GIF " =
        ClassifiedPayload.media (stripStr " http://cam/1.GIF ")
          (String.mk (lowerList g))
          (if lowerList g = "gif".data then MediaKind.animation
           else MediaKind.image)) :=
  ⟨(C1_amended_classify " hello ").1 (by decide),
   (C1_amended_classify " http://cam/1.GIF ").2 (by decide)⟩

/-- A concrete configuration used by witnesses: the default topics of
src/monitor.py lines 51–56 with chat id "123". -/
def cfgEx : Config :=
  { chatId := "123",
    topicsOutput := ["telegram/output/#", "mt32/#"],
    topicInput := "telegram/input" }

/-- C2: an inbound broker message whose decoded, trimmed payload is
`"hello"` on topic `"mt32/status"` produces exactly one chat text send,
with text `"Topic: mt32/status\nMessage: hello"`, and no fetch and no
media send. -/
theorem C2_text_roundtrip (cfg : Config) (env : Env) (payload : String)
    (hp : stripStr payload = "hello") :
    textSendsOf (on_message cfg env "mt32/status" payload).effects =
      [(cfg.chatId, "Topic: mt32/status\nMessage: hello")] ∧
    fetchesOf (on_message cfg env "mt32/status" payload).effects = [] ∧
    mediaSendsOf (on_message cfg env "mt32/status" payload).effects = [] := by
  have hd : pyStrip payload.data = ("hello" : String).data :=
    congrArg String.data hp
  have hm : imageUrlMatch (pyStrip payload.data) = none := by rw [hd]; decide
  cases env with
  | mk f snd =>
    cases snd <;>
      simp [on_message, onMessageBody, hm, hp, textSendsOf, fetchesOf,
        mediaSendsOf]

/-- Witness for C2: the theorem at a payload with surrounding whitespace. -/
theorem C2_witness :
    textSendsOf (on_message cfgEx ⟨FetchOutcome.raisesBefore, SendOutcome.ok⟩
        "mt32/status" " hello\n").effects =
      [("123", "Topic: mt32/status\nMessage: hello")] :=
  (C2_text_roundtrip cfgEx ⟨FetchOutcome.raisesBefore, SendOutcome.ok⟩
    " hello\n" (by decide)).1

/-- C3: an inbound broker message with payload
`"https://x.example/a.png"` on topic `"telegram/output/cam1"` performs
exactly one HTTP fetch of that URL; when the fetch completes with a 2xx
status it performs exactly one image send with caption
`"Topic: telegram/output/cam1"`; and it performs no text send. -/
theorem C3_media_roundtrip (cfg : Config) (env : Env) (st : Nat) :
    fetchesOf (on_message cfg env "telegram/output/cam1"
        "https://x.example/a.png").effects = ["https://x.example/a.png"] ∧
    textSendsOf (on_message cfg env "telegram/output/cam1"
        "https://x.example/a.png").effects = [] ∧
    (env.fetch = FetchOutcome.completes st → 200 ≤ st → st < 300 →
      mediaSendsOf (on_message cfg env "telegram/output/cam1"
          "https://x.example/a.png").effects =
        [Effect.sendPhoto cfg.chatId "snapshot.png"
          "Topic: telegram/output/cam1"]) := by
  have hm : imageUrlMatch (pyStrip ("https://x.example/a.png" : String).data) =
      some ("png" : String).data := by decide
  have hng : ¬ (String.mk (lowerList ("png" : String).data) = ("gif" : String)) := by
    decide
  have hstrip : stripStr "https://x.example/a.png" = "https://x.example/a.png" := by
    decide
  refine ⟨?_, ?_, ?_⟩
  · rcases env with ⟨f, snd⟩
    cases f with
    | raisesBefore =>
      cases snd <;> simp [on_message, onMessageBody, hm, hstrip, fetchesOf]
    | completes st2 =>
      cases snd <;>
        by_cases hr : raiseForStatus st2 <;>
          simp [on_message, onMessageBody, hm, hstrip, hr, hng, fetchesOf]
  · rcases env with ⟨f, snd⟩
    cases f with
    | raisesBefore =>
      cases snd <;> simp [on_message, onMessageBody, hm, hstrip, textSendsOf]
    | completes st2 =>
      cases snd <;>
        by_cases hr : raiseForStatus st2 <;>
          simp [on_message, onMessageBody, hm, hstrip, hr, hng, textSendsOf]
  · intro hf h1 h2
    have hr : raiseForStatus st = false := by
      have h4 : ¬ (400 ≤ st) := by omega
      simp [raiseForStatus, h4]
    rcases env with ⟨f, snd⟩
    simp only at hf
    subst hf
    cases snd <;>
      simp [on_message, onMessageBody, hm, hstrip, hr, hng, mediaSendsOf] <;>
        decide

/-- Witness for C3: the third conjunct at a 200-status fetch. -/
theorem C3_witness :
    mediaSendsOf (on_message cfgEx ⟨FetchOutcome.completes 200, SendOutcome.ok⟩
        "telegram/output/cam1" "https://x.example/a.png").effects =
      [Effect.sendPhoto "123" "snapshot.png" "Topic: telegram/output/cam1"] :=
  (C3_media_roundtrip cfgEx ⟨FetchOutcome.completes 200, SendOutcome.ok⟩
    200).2.2 rfl (by decide) (by decide)

/-- C10: for every broker message classified as media and a completing,
non-raising fetch, the single media send's attachment filename is exactly
`"snapshot."` followed by the matched extension lowercased, and it is an
animation send iff that lowercased extension is `"gif"` (otherwise a photo
send). -/
theorem C10_filename (cfg : Config) (env : Env) (topic payload : String)
    (g : List Char) (st : Nat)
    (hm : imageUrlMatch (pyStrip payload.data) = some g)
    (hf : env.fetch = FetchOutcome.completes st)
    (hok : raiseForStatus st = false) :
    mediaSendsOf (on_message cfg env topic payload).effects =
      [if String.mk (lowerList g) = "gif" then
        Effect.sendAnimation cfg.chatId ("snapshot." ++ String.mk (lowerList g))
          ("Topic: " ++ topic)
       else
        Effect.sendPhoto cfg.chatId ("snapshot." ++ String.mk (lowerList g))
          ("Topic: " ++ topic)] := by
  rcases env with ⟨f, snd⟩
  simp only at hf
  subst hf
  cases snd <;>
    by_cases hg : String.mk (lowerList g) = "gif" <;>
      simp [on_message, onMessageBody, hm, hok, hg, mediaSendsOf]

/-- Witness for C10: a URL ending in `.GIF` yields filename
`"snapshot.gif"` and an animation send. -/
theorem C10_witness :
    mediaSendsOf (on_message cfgEx ⟨FetchOutcome.completes 200, SendOutcome.ok⟩
        "cam" "https://x.example/a.GIF").effects =
      [Effect.sendAnimation "123" "snapshot.gif" "Topic: cam"] :=
  C10_filename cfgEx ⟨FetchOutcome.completes 200, SendOutcome.ok⟩
    "cam" "https://x.example/a.GIF" ("GIF" : String).data 200
    (by decide) rfl (by decide)

/-- C4 fails as stated: the claim counts every non-2xx status as a fetch
failure with zero chat sends, but `response.raise_for_status()` raises
only for 4xx/5xx.  A fetch completing with status 304 (non-2xx, not an
HTTP error) proceeds to `send_photo`: one chat send. -/
theorem C4_counterexample :
    ¬ (200 ≤ 304 ∧ 304 < 300) ∧
    chatSendsOf (on_message cfgEx ⟨FetchOutcome.completes 304, SendOutcome.ok⟩
        "t" "https://x.example/a.png").effects =
      [Effect.sendPhoto "123" "snapshot.png" "Topic: t"] :=
  ⟨by decide, by decide⟩

/-- C4 (amended): every error raised during the fetch or the chat send is
caught inside `on_message`, so the handler never propagates an exception
to the broker loop; a fetch failure (connection error, timeout, or 4xx/5xx
status, which is what `raise_for_status` raises on) for a matched media
URL results in zero chat sends for that message; and message processing is
compositional, so the handler processes subsequent inbound messages
unaffected. -/
theorem C4_error_containment :
    (∀ cfg env topic payload,
      (on_message cfg env topic payload).raised = false) ∧
    (∀ cfg env topic payload g,
      imageUrlMatch (pyStrip payload.data) = some g →
      fetchFails env.fetch = true →
      chatSendsOf (on_message cfg env topic payload).effects = []) ∧
    (∀ cfg ms1 ms2, processMessages cfg (ms1 ++ ms2) =
      processMessages cfg ms1 ++ processMessages cfg ms2) := by
  refine ⟨?_, ?_, ?_⟩
  · intro cfg env topic payload
    by_cases h : (onMessageBody cfg env topic payload).raised = true <;>
      simp [on_message, h]
  · intro cfg env topic payload g hm hfail
    rcases env with ⟨f, snd⟩
    cases f with
    | raisesBefore =>
      simp [on_message, onMessageBody, hm, chatSendsOf, chatDest]
    | completes st =>
      have hr : raiseForStatus st = true := by simpa [fetchFails] using hfail
      simp [on_message, onMessageBody, hm, hr, chatSendsOf, chatDest]
  · intro cfg ms1 ms2
    induction ms1 with
    | nil => simp [processMessages]
    | cons m rest ih =>
      rcases m with ⟨env, topic, payload⟩
      simp [processMessages, ih]

/-- Witness for C4 (amended): a 404 fetch on a matched media URL yields
zero chat sends. -/
theorem C4_witness :
    chatSendsOf (on_message cfgEx ⟨FetchOutcome.completes 404, SendOutcome.ok⟩
        "t" "https://x.example/a.png").effects = [] :=
  C4_error_containment.2.1 cfgEx ⟨FetchOutcome.completes 404, SendOutcome.ok⟩
    "t" "https://x.example/a.png" ("png" : String).data (by decide) (by decide)

/-- C5: a chat message whose sender identity (as a string) differs from
the configured destination identity produces zero publishes and zero
replies — only a logged warning. -/
theorem C5_unauthorized_drop (cfg : Config) (senderId : Int) (text : String)
    (rc : Nat) (h : toString senderId ≠ cfg.chatId) :
    publishesOf (handle_telegram_message cfg senderId text rc) = [] ∧
    repliesOf (handle_telegram_message cfg senderId text rc) = [] ∧
    handle_telegram_message cfg senderId text rc = [Effect.logWarning] := by
  simp [handle_telegram_message, h, publishesOf, repliesOf]

/-- Witness for C5: sender 124 against configured identity "123". -/
theorem C5_witness :
    publishesOf (handle_telegram_message cfgEx 124 "on" 0) = [] ∧
    repliesOf (handle_telegram_message cfgEx 124 "on" 0) = [] ∧
    handle_telegram_message cfgEx 124 "on" 0 = [Effect.logWarning] :=
  C5_unauthorized_drop cfgEx 124 "on" 0 (by decide)

/-- C6: a chat message from the authorized identity produces exactly one
publish of the text verbatim to the configured input topic, and exactly
one reply: on publish success (rc 0) a reply containing the input topic
name, otherwise the generic failure reply. -/
theorem C6_authorized_roundtrip (cfg : Config) (senderId : Int)
    (text : String) (rc : Nat) (h : toString senderId = cfg.chatId) :
    publishesOf (handle_telegram_message cfg senderId text rc) =
      [(cfg.topicInput, text)] ∧
    (rc = 0 → repliesOf (handle_telegram_message cfg senderId text rc) =
      [(toString senderId, "Sent to `" ++ cfg.topicInput ++ "`")] ∧
      ∃ a b, "Sent to `" ++ cfg.topicInput ++ "`" = a ++ cfg.topicInput ++ b) ∧
    (rc ≠ 0 → repliesOf (handle_telegram_message cfg senderId text rc) =
      [(toString senderId, "ERROR - Publishing to MQTT failed")]) := by
  have hne : ¬ (toString senderId ≠ cfg.chatId) := by simp [h]
  refine ⟨?_, ?_, ?_⟩
  · by_cases hrc : rc = 0 <;>
      simp [handle_telegram_message, hne, hrc, publishesOf]
  · intro hrc
    exact ⟨by simp [handle_telegram_message, hne, hrc, repliesOf],
      "Sent to `", "`", rfl⟩
  · intro hrc
    simp [handle_telegram_message, hne, hrc, repliesOf]

/-- Witness for C6: sender 123 against configured identity "123", publish
success. -/
theorem C6_witness :
    publishesOf (handle_telegram_message cfgEx 123 "on" 0) =
      [("telegram/input", "on")] ∧
    repliesOf (handle_telegram_message cfgEx 123 "on" 0) =
      [("123", "Sent to `telegram/input`")] :=
  ⟨(C6_authorized_roundtrip cfgEx 123 "on" 0 (by decide)).1,
   ((C6_authorized_roundtrip cfgEx 123 "on" 0 (by decide)).2.1 rfl).1⟩

/-- C7: on result code 0, `on_connect` subscribes once per configured
filter, in configured order (each filter taken up to surrounding
whitespace, which the handler strips); the handler is a pure function of
the configuration and result code, hence independent of prior subscription
state; on a non-zero result code it subscribes to nothing. -/
theorem C7_resubscribe (cfg : Config) (rc : Nat) :
    (rc ≠ 0 → subsOf (on_connect cfg rc) = []) ∧
    subsOf (on_connect cfg 0) = cfg.topicsOutput.map stripStr ∧
    ((∀ t ∈ cfg.topicsOutput, stripStr t = t) →
      subsOf (on_connect cfg 0) = cfg.topicsOutput) := by
  have hsubs : ∀ l : List String,
      subsOf (l.map (fun t => Effect.subscribe (stripStr t))) =
        l.map stripStr := by
    intro l
    induction l with
    | nil => rfl
    | cons a as ih => simp only [List.map_cons, subsOf, List.filterMap_cons] at ih ⊢; simp [ih]
  have hmain : subsOf (on_connect cfg 0) = cfg.topicsOutput.map stripStr := by
    simp only [on_connect, if_pos rfl]
    exact hsubs cfg.topicsOutput
  refine ⟨?_, hmain, ?_⟩
  · intro h
    simp [on_connect, h, subsOf]
  · intro hall
    rw [hmain]
    have hid : ∀ l : List String, (∀ t ∈ l, stripStr t = t) →
        l.map stripStr = l := by
      intro l
      induction l with
      | nil => intro _; rfl
      | cons a as ih =>
        intro hl
        simp only [List.map_cons]
        rw [hl a (by simp), ih (fun t ht => hl t (by simp [ht]))]
    exact hid cfg.topicsOutput hall

/-- Witness for C7: the default configuration; nothing on rc 5, the two
configured filters in order on rc 0. -/
theorem C7_witness :
    subsOf (on_connect cfgEx 5) = [] ∧
    subsOf (on_connect cfgEx 0) = ["telegram/output/#", "mt32/#"] :=
  ⟨(C7_resubscribe cfgEx 5).1 (by decide),
   (C7_resubscribe cfgEx 0).2.2 (by decide)⟩

/-- Every chat send of `on_message` targets the configured identity. -/
theorem onMessage_sendsOnlyTo (cfg : Config) (env : Env)
    (topic payload : String) :
    sendsOnlyTo cfg.chatId (on_message cfg env topic payload).effects = true := by
  cases hm : imageUrlMatch (pyStrip payload.data) with
  | none =>
    rcases env with ⟨f, snd⟩
    cases snd <;> simp [on_message, onMessageBody, hm, sendsOnlyTo, chatDest]
  | some g =>
    rcases env with ⟨f, snd⟩
    cases f with
    | raisesBefore =>
      simp [on_message, onMessageBody, hm, sendsOnlyTo, chatDest]
    | completes st =>
      by_cases hr : raiseForStatus st <;>
        by_cases hg : (String.mk (lowerList g) = ("gif" : String)) <;>
          cases snd <;>
            simp [on_message, onMessageBody, hm, hr, hg, sendsOnlyTo, chatDest]

/-- Every chat send of `handle_telegram_message` targets the configured
identity (replies occur only behind the string-equality guard). -/
theorem handle_sendsOnlyTo (cfg : Config) (senderId : Int) (text : String)
    (rc : Nat) :
    sendsOnlyTo cfg.chatId (handle_telegram_message cfg senderId text rc) =
      true := by
  by_cases h : toString senderId ≠ cfg.chatId
  · simp [handle_telegram_message, h, sendsOnlyTo, chatDest]
  · have he : toString senderId = cfg.chatId := not_not.mp h
    by_cases hrc : rc = 0 <;>
      simp [handle_telegram_message, h, hrc, sendsOnlyTo, chatDest, he]

/-- C8: every chat send performed by either handler (text, photo,
animation, reply) targets the single configured destination identity. -/
theorem C8_single_destination (cfg : Config) (env : Env)
    (topic payload text : String) (senderId : Int) (rc : Nat) :
    sendsOnlyTo cfg.chatId ((on_message cfg env topic payload).effects ++
      handle_telegram_message cfg senderId text rc) = true := by
  have h1 := onMessage_sendsOnlyTo cfg env topic payload
  have h2 := handle_sendsOnlyTo cfg senderId text rc
  simp only [sendsOnlyTo] at h1 h2 ⊢
  rw [List.all_append, h1, h2]
  rfl

/-- C9: an inbound chat message is accepted (published) iff the decimal
string form of its sender chat id equals the configured identity string;
leading zeros or surrounding whitespace in the configured value cause
rejection of the numerically equal sender. -/
theorem C9_str_equality_auth :
    (∀ cfg senderId text rc,
      publishesOf (handle_telegram_message cfg senderId text rc) ≠ [] ↔
        toString senderId = cfg.chatId) ∧
    publishesOf
        (handle_telegram_message ⟨"123", [], "telegram/input"⟩ 123 "on" 0) =
      [("telegram/input", "on")] ∧
    handle_telegram_message ⟨"0123", [], "telegram/input"⟩ 123 "on" 0 =
      [Effect.logWarning] ∧
    handle_telegram_message ⟨" 123", [], "telegram/input"⟩ 123 "on" 0 =
      [Effect.logWarning] := by
  refine ⟨?_, by decide, by decide, by decide⟩
  intro cfg senderId text rc
  by_cases h : toString senderId = cfg.chatId
  · refine ⟨fun _ => h, fun _ => ?_⟩
    have hne : ¬ (toString senderId ≠ cfg.chatId) := by simp [h]
    by_cases hrc : rc = 0 <;>
      simp [handle_telegram_message, hne, hrc, publishesOf]
  · refine ⟨fun hpub => ?_, fun he => absurd he h⟩
    exfalso
    apply hpub
    simp [handle_telegram_message, h, publishesOf]

/-- Witness for C9: the iff at sender 123 and configured "123". -/
theorem C9_witness : toString (123 : Int) = ("123" : String) :=
  (C9_str_equality_auth.1 ⟨"123", [], "telegram/input"⟩ 123 "on" 0).mp
    (by decide)

end Monitor
